import Mathlib

/-!
Shallow embedding of src/dronecontroller.py (py-minidrone).

Conventions of the embedding:
* Python floats and timestamps are modelled as rationals.
* External library functions that the controller merely calls
  (math.atan2, math.sqrt, the four PID instances from pid_controller.pid,
  each called at most once per decision step) are parameters of an
  environment record, so every theorem quantifies over their behaviour.
* Effects on the drone hardware (drone.connect, drone.still, drone.takeoff,
  drone.send_joy) are recorded as an ordered action trace.
* The attribute self.drone_tracking is read at line 234 of the source but is
  assigned nowhere in the file; it is modelled as an environment-supplied
  boolean (the design document leaves its source as an open question).
-/

namespace DroneController

/-! ### Constants (source lines 10, 26-34) -/

def MAX_SPEED : ℚ := 100

def S_DISCONNECTED : Nat := 0

def S_CONNECTING : Nat := 1

def S_CONNECTED : Nat := 2

def VICON_TIMEOUT : ℚ := 1/2

def DRONE_TIMEOUT : ℚ := 3

def LOOP_TIMEOUT : ℚ := 1/20

def LIFT_DELAY : ℚ := 3

def ROTATION_HALT : ℚ := 2/5

def ROTATION_FAILED : ℚ := 1

def GROUNDED_SPEED : Int := 10

/-! ### Pose math (source lines 115-134) -/

/-- A quaternion as the source stores it: a 4-tuple read positionally, with
index 0,1,2,3 = x,y,z,w. -/
structure Quat where
  x : ℚ
  y : ℚ
  z : ℚ
  w : ℚ
deriving DecidableEq, Repr

/-- A translation as the source stores it: a 3-tuple with index 0,1,2 = x,y,z. -/
structure V3 where
  x : ℚ
  y : ℚ
  z : ℚ
deriving DecidableEq, Repr

/-- Source lines 120-122: negate x, y, z and keep w (quaternion conjugate). -/
def negate_quaternion (q : Quat) : Quat :=
  ⟨-q.x, -q.y, -q.z, q.w⟩

/-- Source lines 125-129: componentwise Hamilton product, with tuple index
0,1,2,3 read as x,y,z,w. -/
def add_quaternion (q1 q2 : Quat) : Quat :=
  ⟨q1.w * q2.x + q1.x * q2.w + q1.y * q2.z - q1.z * q2.y,
   q1.w * q2.y - q1.x * q2.z + q1.y * q2.w + q1.z * q2.x,
   q1.w * q2.z + q1.x * q2.y - q1.y * q2.x + q1.z * q2.w,
   q1.w * q2.w - q1.x * q2.x - q1.y * q2.y - q1.z * q2.z⟩

/-- Source lines 132-134: math.atan2 is external and transcendental, so it is
passed in as a function parameter. -/
def quaternion_to_yaw (atan2 : ℚ → ℚ → ℚ) (q : Quat) : ℚ :=
  atan2 (2 * q.y * q.w - 2 * q.x * q.z) (1 - 2 * q.y * q.y - 2 * q.z * q.z)

/-- Source lines 115-117 (the misspelling is the source function name). -/
def angluar_difference (atan2 : ℚ → ℚ → ℚ) (quad1 quad2 : Quat) : ℚ :=
  quaternion_to_yaw atan2 (add_quaternion quad1 (negate_quaternion quad2))

/-! ### Numeric helpers used inline by make_decision -/

/-- Python int() on a float: truncation toward zero. -/
def pyInt (x : ℚ) : Int :=
  if x < 0 then ⌈x⌉ else ⌊x⌋

/-- Source line 244: clip = lambda x, x_min, x_max: max(x_min, min(x_max, x)). -/
def clip (x x_min x_max : ℚ) : ℚ :=
  max x_min (min x_max x)

/-- math.copysign(a, x): the magnitude of a carrying the sign of x
(a rational has no negative zero, so x = 0 yields the positive magnitude,
as Python does on +0.0). -/
def copysign (a x : ℚ) : ℚ :=
  if x < 0 then -|a| else |a|

/-- Source line 238: scale = lambda x: math.copysign(math.sqrt(math.fabs(x)), x);
math.sqrt is external and is passed in as a function parameter. -/
def scale (sqrtFn : ℚ → ℚ) (x : ℚ) : ℚ :=
  copysign (sqrtFn |x|) x

/-! ### The environment of a decision step: external numeric routines, the
stateful PID instances (each is called at most once per step, so only the
value each call returns matters inside one step), and the unassigned
drone_tracking attribute. -/

structure Env where
  pid_lr : ℚ → ℚ
  pid_fb : ℚ → ℚ
  pid_vertical : ℚ → ℚ
  pid_rotation : ℚ → ℚ
  sqrt : ℚ → ℚ
  atan2 : ℚ → ℚ → ℚ
  drone_tracking : Bool

/-! ### Controller state (source lines 147-163)

Fields of ControllerThread that the embedded code reads or writes.
new_changes models the counting semaphore (its current count);
zmq/thread handles and the drone handle itself are effects, not state. -/

structure ControllerState where
  state : Nat
  message : String
  battery : String
  speed : Int
  config : List (String × String)
  drone_translation : V3
  drone_rotation : Quat
  target_translation : V3
  target_rotation : Quat
  last_drone_update : ℚ
  last_vicon_update : ℚ
  lifted_time : ℚ
  failed : Bool
  joy_update : ℚ
  new_changes : Nat
deriving DecidableEq, Repr

/-- __init__ (source lines 147-163); t0 is the wall clock at construction. -/
def initState (t0 : ℚ) : ControllerState :=
  { state := S_DISCONNECTED
    message := ""
    battery := ""
    speed := 0
    config := []
    drone_translation := ⟨0, 0, 0⟩
    drone_rotation := ⟨0, 1, 0, 0⟩
    target_translation := ⟨0, 0, 0⟩
    target_rotation := ⟨0, 1, 0, 0⟩
    last_drone_update := t0
    last_vicon_update := t0
    lifted_time := 0
    failed := false
    joy_update := t0
    new_changes := 0 }

/-- Commands issued to the drone interface, in program order within a step. -/
inductive Action where
  | connect : Action
  | halt : Action
  | takeoff : Action
  | sendJoy (hor_lr hor_fb rotation vertical : Int) : Action
deriving DecidableEq, Repr

/-! ### State mutators driven by inbound data (source lines 179-214) -/

/-- receive_drone_data events: the tagged callback payloads
(CB_MSG, CB_BATTERY, CB_SPEED, CB_DATA_UPDATE, CB_STATE); the speed payload
arrives already through int(data). -/
inductive DroneEvent where
  | msg (data : String)
  | battery (data : String)
  | speed (data : Int)
  | dataUpdate (data : List (String × String))
  | state (data : String)
deriving DecidableEq, Repr

/-- Source lines 179-201: update the tagged field, then stamp
last_drone_update with the current time and release the semaphore. -/
def receive_drone_data (now : ℚ) (s : ControllerState) (e : DroneEvent) :
    ControllerState :=
  let s1 :=
    match e with
    | .msg d => { s with message := d }
    | .battery d => { s with battery := d }
    | .speed d => { s with speed := d }
    | .dataUpdate d => { s with config := d }
    | .state d =>
        { s with state := if d = "y" then S_CONNECTED else S_DISCONNECTED }
  { s1 with last_drone_update := now, new_changes := s1.new_changes + 1 }

/-- Source lines 203-209: store the tracked pose, clear failed on reset,
stamp last_vicon_update, release the semaphore. -/
def receive_vicon_data (now : ℚ) (s : ControllerState) (translation : V3)
    (rotation : Quat) (reset : Bool) : ControllerState :=
  { s with
    drone_translation := translation
    drone_rotation := rotation
    failed := if reset then false else s.failed
    last_vicon_update := now
    new_changes := s.new_changes + 1 }

/-- Source lines 211-214: store the target pose and release the semaphore. -/
def receive_unity_data (s : ControllerState) (translation : V3)
    (rotation : Quat) : ControllerState :=
  { s with
    target_translation := translation
    target_rotation := rotation
    new_changes := s.new_changes + 1 }

/-! ### The decision step (source lines 216-254) -/

/-- The yaw error computed at source line 236. -/
def yawError (env : Env) (s : ControllerState) : ℚ :=
  angluar_difference env.atan2 s.drone_rotation s.target_rotation

/-- Source lines 235-248: the four-axis command computed in the airborne,
tracking-available branch, in send_joy argument order
(hor_lr, hor_fb, rotation, vertical), after clipping and int() truncation.
The source initialises hor_lr = hor_fb = vertical = 0 and overwrites them
only when the fabs(angle) test passes, which is the if/else below. -/
def airborneCommand (env : Env) (s : ControllerState) : Int × Int × Int × Int :=
  let angle := yawError env s
  let rotation := env.pid_rotation (-angle)
  let hlv : ℚ × ℚ × ℚ :=
    if |angle| < ROTATION_HALT then
      (scale env.sqrt (env.pid_lr (-(s.drone_translation.x - s.target_translation.x))),
       scale env.sqrt (env.pid_fb (-(s.drone_translation.z - s.target_translation.z))),
       env.pid_vertical (-(s.drone_translation.y - s.target_translation.y)))
    else
      (0, 0, 0)
  (pyInt (clip hlv.1 (-MAX_SPEED) MAX_SPEED),
   pyInt (clip hlv.2.1 (-MAX_SPEED) MAX_SPEED),
   pyInt (clip rotation (-MAX_SPEED) MAX_SPEED),
   pyInt (clip hlv.2.2 (-MAX_SPEED) MAX_SPEED))

/-- Source lines 216-254. now is the time.time() taken at line 217; the two
further time.time() calls at lines 249 and 252 happen within the same step
and are identified with now. The returned list is the sequence of drone
commands the step issues. -/
def make_decision (env : Env) (now : ℚ) (s : ControllerState) :
    ControllerState × List Action :=
  if s.failed then (s, [])
  else
    let acts := if s.state = S_DISCONNECTED then [Action.connect] else []
    if now - s.last_drone_update > DRONE_TIMEOUT then
      (s, acts ++ [Action.halt])
    else if now - s.last_vicon_update > VICON_TIMEOUT then
      (s, acts ++ [Action.halt])
    else if s.state = S_CONNECTED then
      if s.speed < GROUNDED_SPEED then
        if now - s.lifted_time > LIFT_DELAY then
          (s, acts ++ [Action.takeoff])
        else
          (s, acts)
      else if env.drone_tracking then
        let c := airborneCommand env s
        if now - s.joy_update > 3/10 then
          ({ s with joy_update := now },
           acts ++ [Action.sendJoy c.1 c.2.1 c.2.2.1 c.2.2.2])
        else
          (s, acts)
      else
        (s, acts ++ [Action.sendJoy 0 0 0 (-10)])
    else
      (s, acts)

/-! ### Events and runs: the concurrent inputs that mutate controller state -/

/-- One shared-state transition: a tracking-feed update, a target-feed update,
a drone-callback event, or one decision step. Each inbound event carries the
wall-clock time at which its handler runs. -/
inductive Event where
  | vicon (now : ℚ) (translation : V3) (rotation : Quat) (reset : Bool)
  | unity (translation : V3) (rotation : Quat)
  | drone (now : ℚ) (e : DroneEvent)
  | decide (now : ℚ)

/-- The state transition of one event (decision steps also emit actions). -/
def step (env : Env) (s : ControllerState) (e : Event) :
    ControllerState × List Action :=
  match e with
  | .vicon now tr rot reset => (receive_vicon_data now s tr rot reset, [])
  | .unity tr rot => (receive_unity_data s tr rot, [])
  | .drone now de => (receive_drone_data now s de, [])
  | .decide now => make_decision env now s

/-- Fold a whole event history from a state. -/
def runEvents (env : Env) (s : ControllerState) (evs : List Event) :
    ControllerState :=
  evs.foldl (fun st e => (step env st e).1) s

/-! ### The listener threads (source lines 40-112)

A request body is modelled after json.loads: none when the body is not valid
JSON (json.loads raises, and it is called OUTSIDE the try/except at source
lines 54 and 92), some j when it parses to the JSON value j. -/

/-- A parsed JSON value. -/
inductive JVal where
  | jnum (q : ℚ)
  | jstr (s : String)
  | jbool (b : Bool)
  | jnull
  | jarr (xs : List JVal)
  | jobj (fields : List (String × JVal))

/-- Python subscripting v[k] on a decoded JSON value: succeeds only on an
object that has the key (a missing key raises KeyError, subscripting a
non-object with a string raises TypeError; both land in the except block). -/
def getField (j : JVal) (k : String) : Option JVal :=
  match j with
  | .jobj fields => fields.lookup k
  | _ => none

/-- Python (v == 1) on a decoded JSON value: true for the number 1 and for
true (bool is an int subtype in Python, True == 1). -/
def jvalEqOne (j : JVal) : Bool :=
  match j with
  | .jnum q => q == 1
  | .jbool b => b
  | _ => false

/-- Source lines 57-66: field extraction of the tracking request; any failure
raises into the bare except. Values are not type-checked, only looked up;
rotation is read in (x, y, z, w) order and reset compared with 1. -/
def decodeVicon (j : JVal) :
    Option ((JVal × JVal × JVal) × (JVal × JVal × JVal × JVal) × Bool) := do
  let t ← getField j "translation"
  let tx ← getField t "x"
  let ty ← getField t "y"
  let tz ← getField t "z"
  let r ← getField j "rotation"
  let rx ← getField r "x"
  let ry ← getField r "y"
  let rz ← getField r "z"
  let rw ← getField r "w"
  let rst ← getField j "reset"
  pure ((tx, ty, tz), (rx, ry, rz, rw), jvalEqOne rst)

/-- Source lines 95-104: field extraction of the target request; rotation is
read in (w, x, y, z) order and there is no reset field. -/
def decodeUnity (j : JVal) :
    Option ((JVal × JVal × JVal) × (JVal × JVal × JVal × JVal)) := do
  let t ← getField j "translation"
  let tx ← getField t "x"
  let ty ← getField t "y"
  let tz ← getField t "z"
  let r ← getField j "rotation"
  let rw ← getField r "w"
  let rx ← getField r "x"
  let ry ← getField r "y"
  let rz ← getField r "z"
  pure ((tx, ty, tz), (rw, rx, ry, rz))

/-- What one loop iteration of a listener did with one request. -/
structure ListenerStep where
  calledProcess : Bool
  calledCleanup : Bool
  sentReply : Bool
deriving DecidableEq, Repr

/-- Source lines 51-71, one iteration of ViconServerThread.run on one request:
if the body is not valid JSON, json.loads at line 54 raises outside the
try/except, so the iteration ends with no process, no cleanup and no reply
(the exception propagates out of run and kills the thread). If it parses,
extraction failure runs cleanup instead of process, and either way the
feedback reply is sent. -/
def viconServerStep (body : Option JVal) : ListenerStep :=
  match body with
  | none => ⟨false, false, false⟩
  | some j =>
    match decodeVicon j with
    | some _ => ⟨true, false, true⟩
    | none => ⟨false, true, true⟩

/-- Source lines 89-108, one iteration of UnityServerThread.run: same shape,
with json.loads at line 92 likewise outside the try/except. -/
def unityServerStep (body : Option JVal) : ListenerStep :=
  match body with
  | none => ⟨false, false, false⟩
  | some j =>
    match decodeUnity j with
    | some _ => ⟨true, false, true⟩
    | none => ⟨false, true, true⟩

/-! ### Helper definitions for the statements and witnesses -/

/-- The connect action that lines 220-221 may emit before anything else. -/
def connectActs (s : ControllerState) : List Action :=
  if s.state = S_DISCONNECTED then [Action.connect] else []

/-- A trivial environment: every external numeric routine returns 0 and
drone_tracking is false. -/
def env0 : Env :=
  { pid_lr := fun _ => 0
    pid_fb := fun _ => 0
    pid_vertical := fun _ => 0
    pid_rotation := fun _ => 0
    sqrt := fun _ => 0
    atan2 := fun _ _ => 0
    drone_tracking := false }

/-- env0 with target tracking available. -/
def envTracking : Env :=
  { env0 with drone_tracking := true }

/-! ### Helper lemmas -/

lemma make_decision_drone_stale (env : Env) (now : ℚ) (s : ControllerState)
    (hf : s.failed = false) (h : now - s.last_drone_update > DRONE_TIMEOUT) :
    make_decision env now s = (s, connectActs s ++ [Action.halt]) := by
  simp only [make_decision, hf, Bool.false_eq_true, if_false, connectActs, h, if_true]

lemma make_decision_vicon_stale (env : Env) (now : ℚ) (s : ControllerState)
    (hf : s.failed = false) (hd : ¬ now - s.last_drone_update > DRONE_TIMEOUT)
    (h : now - s.last_vicon_update > VICON_TIMEOUT) :
    make_decision env now s = (s, connectActs s ++ [Action.halt]) := by
  simp only [make_decision, hf, Bool.false_eq_true, if_false, connectActs, hd, h, if_true]

lemma make_decision_no_halt (env : Env) (now : ℚ) (s : ControllerState)
    (hd : ¬ now - s.last_drone_update > DRONE_TIMEOUT)
    (hv : ¬ now - s.last_vicon_update > VICON_TIMEOUT) :
    Action.halt ∉ (make_decision env now s).2 := by
  simp only [make_decision, hd, hv, if_false]
  split_ifs <;> simp

/-! ### Claim theorems -/

/-- Claim C1, counterexample: a request whose body is not valid JSON makes
json.loads raise outside the try/except (source lines 54 and 92), so the
iteration invokes neither process nor cleanup and never sends the reply;
the claim that the reply is sent in every case is false. -/
theorem c1_reply_counterexample :
    (viconServerStep none).sentReply = false ∧
    (viconServerStep none).calledCleanup = false ∧
    (unityServerStep none).sentReply = false ∧
    (unityServerStep none).calledCleanup = false :=
  ⟨rfl, rfl, rfl, rfl⟩

/-- Claim C1, amended: for every inbound request whose body parses as JSON,
each listener invokes cleanup exactly when field extraction fails, invokes
process exactly otherwise, and in both cases still sends the fixed reply;
a request whose body is not valid JSON raises out of the loop with no
cleanup and no reply. -/
theorem c1_listener_reply (j : JVal) :
    ((viconServerStep (some j)).sentReply = true ∧
     ((viconServerStep (some j)).calledCleanup = true ↔ decodeVicon j = none) ∧
     ((viconServerStep (some j)).calledProcess = true ↔ (decodeVicon j).isSome)) ∧
    ((unityServerStep (some j)).sentReply = true ∧
     ((unityServerStep (some j)).calledCleanup = true ↔ decodeUnity j = none) ∧
     ((unityServerStep (some j)).calledProcess = true ↔ (decodeUnity j).isSome)) ∧
    (viconServerStep none).sentReply = false ∧
    (unityServerStep none).sentReply = false := by
  refine ⟨?_, ?_, rfl, rfl⟩
  · cases h : decodeVicon j <;> simp [viconServerStep, h]
  · cases h : decodeUnity j <;> simp [unityServerStep, h]

/-! ### Spec-side pose math for the refinement half of C8.

These definitions follow the words of the design document, not the source:
the conjugate negates x, y, z and keeps w; the product is the standard
Hamilton product; yaw is atan2 of 2(yw - xz) against 1 - 2y^2 - 2z^2. -/

def spec_conjugate (q : Quat) : Quat :=
  ⟨-q.x, -q.y, -q.z, q.w⟩

def spec_hamilton (p q : Quat) : Quat :=
  ⟨p.w * q.x + p.x * q.w + p.y * q.z - p.z * q.y,
   p.w * q.y - p.x * q.z + p.y * q.w + p.z * q.x,
   p.w * q.z + p.x * q.y - p.y * q.x + p.z * q.w,
   p.w * q.w - p.x * q.x - p.y * q.y - p.z * q.z⟩

def spec_yaw (atan2 : ℚ → ℚ → ℚ) (q : Quat) : ℚ :=
  atan2 (2 * (q.y * q.w - q.x * q.z)) (1 - 2 * q.y ^ 2 - 2 * q.z ^ 2)

def spec_yaw_error (atan2 : ℚ → ℚ → ℚ) (cur tgt : Quat) : ℚ :=
  spec_yaw atan2 (spec_hamilton cur (spec_conjugate tgt))

/-- Claim C8: for a unit quaternion q the self-difference is atan2 0 1, which
is 0 for any atan2 agreeing with math.atan2 there; and angluar_difference is
exactly the spec-described yaw extraction of the Hamilton product of the
current orientation with the conjugate of the target orientation. -/
theorem c8_angular_difference (atan2 : ℚ → ℚ → ℚ) (q : Quat)
    (hz : atan2 0 1 = 0)
    (hq : q.x ^ 2 + q.y ^ 2 + q.z ^ 2 + q.w ^ 2 = 1) :
    angluar_difference atan2 q q = 0 ∧
    ∀ q1 q2, angluar_difference atan2 q1 q2 = spec_yaw_error atan2 q1 q2 := by
  constructor
  · have h4 : add_quaternion q (negate_quaternion q) = ⟨0, 0, 0, 1⟩ := by
      simp only [add_quaternion, negate_quaternion, Quat.mk.injEq]
      refine ⟨by ring, by ring, by ring, by linear_combination hq⟩
    rw [angluar_difference, h4]
    simpa [quaternion_to_yaw] using hz
  · intro q1 q2
    simp only [angluar_difference, spec_yaw_error, quaternion_to_yaw, spec_yaw,
      spec_hamilton, spec_conjugate, add_quaternion, negate_quaternion]
    congr 1 <;> ring

/-- Witness for C8 at a concrete atan2 and the unit quaternion (0,0,0,1). -/
theorem c8_angular_difference_witness :
    angluar_difference (fun _ _ => 0) ⟨0, 0, 0, 1⟩ ⟨0, 0, 0, 1⟩ = 0 :=
  (c8_angular_difference (fun _ _ => 0) ⟨0, 0, 0, 1⟩ rfl (by norm_num)).1

/-- Claim C3: with the failure flag clear, a step with telemetry older than
DRONE_TIMEOUT = 3 halts and does nothing further; a step with fresh telemetry
but tracking older than VICON_TIMEOUT = 1/2 halts and does nothing further;
and a step fresh on both sides issues no halt at all. -/
theorem c3_staleness_boundaries (env : Env) (now : ℚ) (s : ControllerState)
    (hf : s.failed = false) :
    (now - s.last_drone_update > DRONE_TIMEOUT →
      make_decision env now s = (s, connectActs s ++ [Action.halt])) ∧
    (now - s.last_drone_update ≤ DRONE_TIMEOUT →
      now - s.last_vicon_update > VICON_TIMEOUT →
      make_decision env now s = (s, connectActs s ++ [Action.halt])) ∧
    (now - s.last_drone_update ≤ DRONE_TIMEOUT →
      now - s.last_vicon_update ≤ VICON_TIMEOUT →
      Action.halt ∉ (make_decision env now s).2) :=
  ⟨fun h => make_decision_drone_stale env now s hf h,
   fun hd hv => make_decision_vicon_stale env now s hf (not_lt.mpr hd) hv,
   fun hd hv => make_decision_no_halt env now s (not_lt.mpr hd) (not_lt.mpr hv)⟩

/-- Witness for C3: telemetry 4s stale halts; tracking 1s stale (with fresh
telemetry) halts; both fresh issues no halt. -/
theorem c3_staleness_boundaries_witness :
    make_decision env0 4 (initState 0) = (initState 0, [Action.connect, Action.halt]) ∧
    make_decision env0 1 { initState 0 with last_drone_update := 1 } =
      ({ initState 0 with last_drone_update := 1 }, [Action.connect, Action.halt]) ∧
    Action.halt ∉ (make_decision env0 2 (initState 2)).2 := by
  refine ⟨?_, ?_, ?_⟩
  · have h := (c3_staleness_boundaries env0 4 (initState 0) rfl).1 (by norm_num [initState, DRONE_TIMEOUT, VICON_TIMEOUT])
    simpa [connectActs, initState, S_DISCONNECTED] using h
  · have h := (c3_staleness_boundaries env0 1
      { initState 0 with last_drone_update := 1 } rfl).2.1 (by norm_num [initState, DRONE_TIMEOUT, VICON_TIMEOUT]) (by norm_num [initState, DRONE_TIMEOUT, VICON_TIMEOUT])
    simpa [connectActs, initState, S_DISCONNECTED] using h
  · exact (c3_staleness_boundaries env0 2 (initState 2) rfl).2.2 (by norm_num [initState, DRONE_TIMEOUT, VICON_TIMEOUT]) (by norm_num [initState, DRONE_TIMEOUT, VICON_TIMEOUT])

/-- Claim C5: while the failure flag is set a decision step issues no command
and changes no field, and among all shared-state transitions exactly the
tracking-feed updates carrying reset clear the flag (in particular no
decision step clears it). -/
theorem c5_failure_suppression (env : Env) (now : ℚ) (s : ControllerState)
    (hf : s.failed = true) :
    make_decision env now s = (s, []) ∧
    ∀ e : Event, ((step env s e).1.failed = false ↔
      ∃ t tr rot, e = Event.vicon t tr rot true) := by
  constructor
  · simp [make_decision, hf]
  · intro e
    cases e with
    | vicon t tr rot reset =>
        cases reset
        · simp [step, receive_vicon_data, hf]
        · exact iff_of_true rfl ⟨t, tr, rot, rfl⟩
    | unity tr rot => simp [step, receive_unity_data, hf]
    | drone t de => cases de <;> simp [step, receive_drone_data, hf]
    | decide t => simp [step, make_decision, hf]

/-- Witness for C5 at a concrete failed state: the step is a no-op and a
reset-carrying tracking update clears the flag. -/
theorem c5_failure_suppression_witness :
    make_decision env0 1 { initState 0 with failed := true } =
      ({ initState 0 with failed := true }, []) ∧
    (step env0 { initState 0 with failed := true }
        (Event.vicon 1 ⟨0, 0, 0⟩ ⟨0, 1, 0, 0⟩ true)).1.failed = false := by
  refine ⟨(c5_failure_suppression env0 1 _ rfl).1, ?_⟩
  exact ((c5_failure_suppression env0 1 _ rfl).2 _).mpr ⟨1, ⟨0, 0, 0⟩, ⟨0, 1, 0, 0⟩, rfl⟩

/-- Claim C9: failed starts false and no transition ever sets it (the only
assignment, in receive_vicon_data, writes false), so after any event history
from the initial state the flag is still false and the failure-suppression
branch of make_decision never fires. -/
theorem c9_failure_unreachable (env : Env) (t0 : ℚ) (evs : List Event) :
    (runEvents env (initState t0) evs).failed = false := by
  have key : ∀ (s : ControllerState) (e : Event), s.failed = false →
      (step env s e).1.failed = false := by
    intro s e hs
    cases e with
    | vicon t tr rot reset => cases reset <;> simp [step, receive_vicon_data, hs]
    | unity tr rot => simp [step, receive_unity_data, hs]
    | drone t de => cases de <;> simp [step, receive_drone_data, hs]
    | decide t =>
        simp only [step, make_decision, hs, Bool.false_eq_true, if_false]
        split_ifs <;> simp [hs]
  have main : ∀ (l : List Event) (s : ControllerState), s.failed = false →
      (runEvents env s l).failed = false := by
    intro l
    induction l with
    | nil => exact fun s hs => hs
    | cons e es ih =>
        intro s hs
        have hrw : runEvents env s (e :: es) = runEvents env (step env s e).1 es := rfl
        rw [hrw]
        exact ih _ (key s e hs)
  exact main evs (initState t0) rfl

/-- Claim C10: a target-feed update writes only the target pose and releases
the wake semaphore; every other field, in particular both staleness
timestamps and the failure flag, is untouched, so a stale step right after
any target-feed update still halts. -/
theorem c10_unity_frame (env : Env) (now : ℚ) (s : ControllerState)
    (tr : V3) (rot : Quat) :
    (receive_unity_data s tr rot).target_translation = tr ∧
    (receive_unity_data s tr rot).target_rotation = rot ∧
    (receive_unity_data s tr rot).new_changes = s.new_changes + 1 ∧
    (receive_unity_data s tr rot).state = s.state ∧
    (receive_unity_data s tr rot).message = s.message ∧
    (receive_unity_data s tr rot).battery = s.battery ∧
    (receive_unity_data s tr rot).speed = s.speed ∧
    (receive_unity_data s tr rot).config = s.config ∧
    (receive_unity_data s tr rot).drone_translation = s.drone_translation ∧
    (receive_unity_data s tr rot).drone_rotation = s.drone_rotation ∧
    (receive_unity_data s tr rot).last_drone_update = s.last_drone_update ∧
    (receive_unity_data s tr rot).last_vicon_update = s.last_vicon_update ∧
    (receive_unity_data s tr rot).lifted_time = s.lifted_time ∧
    (receive_unity_data s tr rot).failed = s.failed ∧
    (receive_unity_data s tr rot).joy_update = s.joy_update ∧
    (s.failed = false → now - s.last_drone_update > DRONE_TIMEOUT →
      make_decision env now (receive_unity_data s tr rot) =
        (receive_unity_data s tr rot, connectActs s ++ [Action.halt])) ∧
    (s.failed = false → now - s.last_drone_update ≤ DRONE_TIMEOUT →
      now - s.last_vicon_update > VICON_TIMEOUT →
      make_decision env now (receive_unity_data s tr rot) =
        (receive_unity_data s tr rot, connectActs s ++ [Action.halt])) := by
  refine ⟨rfl, rfl, rfl, rfl, rfl, rfl, rfl, rfl, rfl, rfl, rfl, rfl, rfl, rfl, rfl,
    ?_, ?_⟩
  · exact fun hf hd => make_decision_drone_stale env now _ hf hd
  · exact fun hf hd hv => make_decision_vicon_stale env now _ hf (not_lt.mpr hd) hv

/-- Witness for C10 at a concrete state: the update keeps the tracking
timestamp, and a stale step after the update still halts. -/
theorem c10_unity_frame_witness :
    (receive_unity_data (initState 0) ⟨1, 2, 3⟩ ⟨0, 0, 0, 1⟩).last_vicon_update = 0 ∧
    (receive_unity_data (initState 0) ⟨1, 2, 3⟩ ⟨0, 0, 0, 1⟩).target_translation = ⟨1, 2, 3⟩ ∧
    make_decision env0 4 (receive_unity_data (initState 0) ⟨1, 2, 3⟩ ⟨0, 0, 0, 1⟩) =
      (receive_unity_data (initState 0) ⟨1, 2, 3⟩ ⟨0, 0, 0, 1⟩,
       [Action.connect, Action.halt]) ∧
    make_decision env0 1
        (receive_unity_data { initState 0 with last_drone_update := 1 } ⟨1, 2, 3⟩ ⟨0, 0, 0, 1⟩) =
      (receive_unity_data { initState 0 with last_drone_update := 1 } ⟨1, 2, 3⟩ ⟨0, 0, 0, 1⟩,
       [Action.connect, Action.halt]) := by
  obtain ⟨h1, h2, h3, h4, h5, h6, h7, h8, h9, h10, h11, h12, h13, h14, h15, h16, h17⟩ :=
    c10_unity_frame env0 4 (initState 0) ⟨1, 2, 3⟩ ⟨0, 0, 0, 1⟩
  obtain ⟨g1, g2, g3, g4, g5, g6, g7, g8, g9, g10, g11, g12, g13, g14, g15, g16, g17⟩ :=
    c10_unity_frame env0 1 { initState 0 with last_drone_update := 1 } ⟨1, 2, 3⟩ ⟨0, 0, 0, 1⟩
  refine ⟨h12, h1, ?_, ?_⟩
  · simpa [connectActs, initState, S_DISCONNECTED] using h16 rfl (by norm_num [initState, DRONE_TIMEOUT, VICON_TIMEOUT])
  · simpa [connectActs, initState, S_DISCONNECTED] using g17 rfl (by norm_num [initState, DRONE_TIMEOUT, VICON_TIMEOUT]) (by norm_num [initState, DRONE_TIMEOUT, VICON_TIMEOUT])

/-! ### Bounds helpers for the dispatched command -/

lemma pyInt_bounds {c : ℚ} (h1 : -100 ≤ c) (h2 : c ≤ 100) :
    -100 ≤ pyInt c ∧ pyInt c ≤ 100 := by
  have h1i : ((-100 : ℤ) : ℚ) ≤ c := by exact_mod_cast h1
  have h2i : c ≤ ((100 : ℤ) : ℚ) := by exact_mod_cast h2
  unfold pyInt
  split_ifs with h
  · refine ⟨?_, ?_⟩
    · have hm := Int.ceil_mono h1i
      rwa [Int.ceil_intCast] at hm
    · have hm := Int.ceil_mono h2i
      rwa [Int.ceil_intCast] at hm
  · refine ⟨?_, ?_⟩
    · have hm := Int.floor_mono h1i
      rwa [Int.floor_intCast] at hm
    · have hm := Int.floor_mono h2i
      rwa [Int.floor_intCast] at hm

lemma airborneCommand_bounds (env : Env) (s : ControllerState) :
    (-100 ≤ (airborneCommand env s).1 ∧ (airborneCommand env s).1 ≤ 100) ∧
    (-100 ≤ (airborneCommand env s).2.1 ∧ (airborneCommand env s).2.1 ≤ 100) ∧
    (-100 ≤ (airborneCommand env s).2.2.1 ∧ (airborneCommand env s).2.2.1 ≤ 100) ∧
    (-100 ≤ (airborneCommand env s).2.2.2 ∧ (airborneCommand env s).2.2.2 ≤ 100) := by
  have hb : ∀ x : ℚ, -100 ≤ pyInt (clip x (-MAX_SPEED) MAX_SPEED) ∧
      pyInt (clip x (-MAX_SPEED) MAX_SPEED) ≤ 100 := by
    intro x
    refine pyInt_bounds ?_ ?_
    · simp only [clip, MAX_SPEED]
      exact le_max_left _ _
    · simp only [clip, MAX_SPEED]
      exact max_le (by norm_num) (min_le_left _ _)
  unfold airborneCommand
  exact ⟨hb _, hb _, hb _, hb _⟩

/-- Every action a decision step can emit is one of connect, halt, takeoff,
the clipped airborne command, or the fixed safe-descent command. -/
lemma make_decision_actions (env : Env) (now : ℚ) (s : ControllerState) :
    ∀ a ∈ (make_decision env now s).2,
      a = Action.connect ∨ a = Action.halt ∨ a = Action.takeoff ∨
      a = Action.sendJoy (airborneCommand env s).1 (airborneCommand env s).2.1
            (airborneCommand env s).2.2.1 (airborneCommand env s).2.2.2 ∨
      a = Action.sendJoy 0 0 0 (-10) := by
  intro a ha
  simp only [make_decision] at ha
  split_ifs at ha <;> simp_all <;> tauto

/-- Claim C4: whatever the poses and whatever the PID, sqrt and atan2
routines return, every component of every send_joy command emitted by a
decision step lies in [-100, 100]. -/
theorem c4_sendjoy_bounds (env : Env) (now : ℚ) (s : ControllerState)
    (lr fb rot vert : Int)
    (h : Action.sendJoy lr fb rot vert ∈ (make_decision env now s).2) :
    -100 ≤ lr ∧ lr ≤ 100 ∧ -100 ≤ fb ∧ fb ≤ 100 ∧
    -100 ≤ rot ∧ rot ≤ 100 ∧ -100 ≤ vert ∧ vert ≤ 100 := by
  obtain ⟨⟨b1, b2⟩, ⟨b3, b4⟩, ⟨b5, b6⟩, ⟨b7, b8⟩⟩ := airborneCommand_bounds env s
  rcases make_decision_actions env now s _ h with h1 | h1 | h1 | h1 | h1
  · simp at h1
  · simp at h1
  · simp at h1
  · simp only [Action.sendJoy.injEq] at h1
    obtain ⟨e1, e2, e3, e4⟩ := h1
    subst e1; subst e2; subst e3; subst e4
    exact ⟨b1, b2, b3, b4, b5, b6, b7, b8⟩
  · simp only [Action.sendJoy.injEq] at h1
    obtain ⟨e1, e2, e3, e4⟩ := h1
    subst e1; subst e2; subst e3; subst e4
    norm_num

/-- A connected, airborne state with fresh inputs, used by witnesses. -/
def sFlying : ControllerState :=
  { initState 0 with state := S_CONNECTED, speed := 50 }

/-- Witness for C4: the safe-descent command (0, 0, 0, -10) dispatched when
tracking is unavailable is within bounds. -/
theorem c4_sendjoy_bounds_witness :
    -100 ≤ (0 : Int) ∧ (0 : Int) ≤ 100 ∧ -100 ≤ (0 : Int) ∧ (0 : Int) ≤ 100 ∧
    -100 ≤ (0 : Int) ∧ (0 : Int) ≤ 100 ∧ -100 ≤ (-10 : Int) ∧ (-10 : Int) ≤ 100 :=
  c4_sendjoy_bounds env0 0 sFlying 0 0 0 (-10)
    (by norm_num [make_decision, sFlying, initState, env0, S_CONNECTED, S_DISCONNECTED,
      GROUNDED_SPEED, DRONE_TIMEOUT, VICON_TIMEOUT])

/-- Claim C6: when the yaw error is at least ROTATION_HALT = 2/5 rad, the
lateral, longitudinal and vertical components of the airborne command are
exactly 0, the rotation component is the clipped yaw PID output on the
negated yaw error, it lies in [-100, 100], and the command does not depend
on the three translation PIDs (they are not invoked). -/
theorem c6_rotation_halt_zeroes (env : Env) (s : ControllerState)
    (h : ROTATION_HALT ≤ |yawError env s|) :
    airborneCommand env s =
      (0, 0, pyInt (clip (env.pid_rotation (-yawError env s)) (-MAX_SPEED) MAX_SPEED), 0) ∧
    (∀ env2 : Env, env2.atan2 = env.atan2 → env2.pid_rotation = env.pid_rotation →
      airborneCommand env2 s = airborneCommand env s) ∧
    -100 ≤ (airborneCommand env s).2.2.1 ∧ (airborneCommand env s).2.2.1 ≤ 100 := by
  have hn : ¬ |yawError env s| < ROTATION_HALT := not_lt.mpr h
  have key : ∀ e : Env, e.atan2 = env.atan2 → e.pid_rotation = env.pid_rotation →
      airborneCommand e s =
        (0, 0, pyInt (clip (env.pid_rotation (-yawError env s)) (-MAX_SPEED) MAX_SPEED), 0) := by
    intro e ha hr
    have he : yawError e s = yawError env s := by rw [yawError, yawError, ha]
    simp only [airborneCommand, he, hr, if_neg hn]
    norm_num [pyInt, clip, MAX_SPEED]
  have h1 := key env rfl rfl
  exact ⟨h1, fun env2 ha hr => (key env2 ha hr).trans h1.symm,
    (airborneCommand_bounds env s).2.2.1.1, (airborneCommand_bounds env s).2.2.1.2⟩

/-- An environment whose atan2 reports a constant yaw error of 1 rad and
whose yaw PID returns a constant 7, used by the C6 witness. -/
def envYawOff : Env :=
  { env0 with atan2 := fun _ _ => 1, pid_rotation := fun _ => 7 }

/-- Witness for C6: with a 1 rad yaw error the command is (0, 0, 7, 0). -/
theorem c6_rotation_halt_zeroes_witness :
    airborneCommand envYawOff (initState 0) = (0, 0, 7, 0) := by
  have h := (c6_rotation_halt_zeroes envYawOff (initState 0)
    (by norm_num [yawError, angluar_difference, quaternion_to_yaw, ROTATION_HALT,
      envYawOff, env0])).1
  rw [h]
  norm_num [yawError, angluar_difference, quaternion_to_yaw, envYawOff, env0,
    pyInt, clip, MAX_SPEED]

/-- Claim C7, counterexample: at an elapsed time of exactly 3/10 s since the
last dispatch the claim demands a send, but the source test at line 249 is
strict, so the step sends nothing and leaves the state unchanged. -/
theorem c7_throttle_counterexample :
    (3/10 : ℚ) - sFlying.joy_update ≥ 3/10 ∧
    make_decision envTracking (3/10) sFlying = (sFlying, []) := by
  constructor
  · norm_num [sFlying, initState]
  · norm_num [make_decision, sFlying, initState, envTracking, env0, S_CONNECTED,
      S_DISCONNECTED, GROUNDED_SPEED, DRONE_TIMEOUT, VICON_TIMEOUT]

/-- Claim C7, amended: in the airborne, tracking-available branch the
computed command is dispatched if and only if now - joy_update is STRICTLY
greater than 3/10 s; on dispatch joy_update becomes now, otherwise the step
changes nothing and sends nothing. -/
theorem c7_dispatch_throttle (env : Env) (now : ℚ) (s : ControllerState)
    (hf : s.failed = false) (hc : s.state = S_CONNECTED)
    (hd : now - s.last_drone_update ≤ DRONE_TIMEOUT)
    (hv : now - s.last_vicon_update ≤ VICON_TIMEOUT)
    (hs : ¬ s.speed < GROUNDED_SPEED) (ht : env.drone_tracking = true) :
    (now - s.joy_update > 3/10 →
      make_decision env now s =
        ({ s with joy_update := now },
         [Action.sendJoy (airborneCommand env s).1 (airborneCommand env s).2.1
            (airborneCommand env s).2.2.1 (airborneCommand env s).2.2.2])) ∧
    (now - s.joy_update ≤ 3/10 → make_decision env now s = (s, [])) := by
  have hd' : ¬ now - s.last_drone_update > DRONE_TIMEOUT := not_lt.mpr hd
  have hv' : ¬ now - s.last_vicon_update > VICON_TIMEOUT := not_lt.mpr hv
  have hns : ¬ s.state = S_DISCONNECTED := by
    rw [hc]; decide
  constructor
  · intro hj
    simp [make_decision, hf, hns, hd', hv', hc, hs, ht, hj, S_CONNECTED, S_DISCONNECTED]
  · intro hj
    have hj' : ¬ now - s.joy_update > 3/10 := not_lt.mpr hj
    simp [make_decision, hf, hns, hd', hv', hc, hs, ht, hj', S_CONNECTED, S_DISCONNECTED]

/-- A connected, airborne state whose last dispatch is 1 s old, used by the
C7 witness. -/
def sDispatch : ControllerState :=
  { initState 1 with state := S_CONNECTED, speed := 50, joy_update := 0 }

/-- Witness for C7 at concrete states on both sides of the threshold: 1 s
elapsed dispatches the airborne command and updates joy_update; 3/10 s
elapsed sends nothing. -/
theorem c7_dispatch_throttle_witness :
    make_decision envTracking 1 sDispatch =
      ({ sDispatch with joy_update := 1 },
       [Action.sendJoy (airborneCommand envTracking sDispatch).1
          (airborneCommand envTracking sDispatch).2.1
          (airborneCommand envTracking sDispatch).2.2.1
          (airborneCommand envTracking sDispatch).2.2.2]) ∧
    make_decision envTracking (3/10) sFlying = (sFlying, []) := by
  constructor
  · exact (c7_dispatch_throttle envTracking 1 sDispatch rfl rfl
      (by norm_num [sDispatch, initState, DRONE_TIMEOUT])
      (by norm_num [sDispatch, initState, VICON_TIMEOUT])
      (by norm_num [sDispatch, initState, GROUNDED_SPEED]) rfl).1
      (by norm_num [sDispatch, initState])
  · exact (c7_dispatch_throttle envTracking (3/10) sFlying rfl rfl
      (by norm_num [sFlying, initState, DRONE_TIMEOUT])
      (by norm_num [sFlying, initState, VICON_TIMEOUT])
      (by norm_num [sFlying, initState, GROUNDED_SPEED]) rfl).2
      (by norm_num [sFlying, initState])

/-- A connected, grounded state with fresh inputs at t = 100 and the
never-written lifted_time still at its initial 0. -/
def sGrounded : ControllerState :=
  { initState 0 with
    state := S_CONNECTED
    speed := 5
    last_drone_update := 100
    last_vicon_update := 100 }

/-- Claim C2 fails on the code: lifted_time is initialised to 0 at source
line 157 and never assigned again (in particular not when takeoff() is
issued at line 231), so the debounce comparison now - lifted_time > 3 holds
at every step once now > 3. Two decision steps 1/10 s apart, both connected,
both with speed 5 < 10 and fresh inputs, each issue takeoff: the first is
the first liftoff attempt and the second, 1/10 s < 3 s later, issues a
second takeoff instead of being debounced. The first step also leaves the
whole state (lifted_time included) unchanged. -/
theorem c2_takeoff_not_debounced :
    (5 : Int) < GROUNDED_SPEED ∧
    (1001/10 : ℚ) - 100 < LIFT_DELAY ∧
    make_decision env0 100 sGrounded = (sGrounded, [Action.takeoff]) ∧
    make_decision env0 (1001/10) sGrounded = (sGrounded, [Action.takeoff]) := by
  refine ⟨by norm_num [GROUNDED_SPEED], by norm_num [LIFT_DELAY], ?_, ?_⟩ <;>
    norm_num [make_decision, sGrounded, initState, env0, S_CONNECTED, S_DISCONNECTED,
      GROUNDED_SPEED, DRONE_TIMEOUT, VICON_TIMEOUT, LIFT_DELAY]

end DroneController
